import Mathlib

/-!
Verification of the symptom-matching / disease-ranking engine of a
clinical decision-support chatbot (Flask app, `app.py`).

The engine is shallowly embedded:
* the `symptoms.csv` dataframe becomes `List SymptomRow` (one row per
  historical observation, cells `Option String` with `none` for a missing
  (NaN) cell);
* the auxiliary dataframes (descriptions, medications, precautions, diet)
  become association lists keyed by disease name;
* Python dicts become association lists preserving insertion order;
* Python `str.lower()` / `str.strip()` become `pyLower` / `pyStrip`
  (ASCII case mapping and whitespace, the fragment the reference data
  exercises);
* Python's substring test `a in b` becomes `containsL` on the character
  data, proved equivalent to `List.IsInfix`;
* the float arithmetic of the confidence computation
  (`round(min(score/total, 1.0), 2)`) is idealised over `ℚ`, with rounding
  to two decimal places modelled by `⌊100·q + 1/2⌋ / 100`.

CPython set-iteration order (which only influences tie order among
equal-score diseases, a behaviour the spec explicitly leaves unspecified)
is modelled as first-seen order.
-/

namespace CDS

/-- One row of `symptoms.csv`: a `Disease` cell plus the `Symptom_*`
columns.  A `none` cell models a NaN (missing) entry. -/
structure SymptomRow where
  disease : String
  symptoms : List (Option String)
  deriving DecidableEq, Repr

/-- Python's `str.lower()` (ASCII case mapping, as in `Char.toLower`). -/
def pyLower (s : String) : String := ⟨s.data.map Char.toLower⟩

/-- Python's `str.strip()`: drop leading and trailing whitespace. -/
def pyStrip (s : String) : String :=
  ⟨((s.data.dropWhile Char.isWhitespace).reverse.dropWhile
      Char.isWhitespace).reverse⟩

/-- Normalisation applied to every symptom cell: `lower()` then `strip()`. -/
def normalize (s : String) : String := pyStrip (pyLower s)

/-- `needle` is a prefix of `hay` (on character lists). -/
def startsWithL : List Char → List Char → Bool
  | [], _ => true
  | _ :: _, [] => false
  | a :: as, b :: bs => a == b && startsWithL as bs

/-- Python's substring test `needle in hay` (on character lists). -/
def containsL : List Char → List Char → Bool
  | n, [] => startsWithL n []
  | n, b :: bs => startsWithL n (b :: bs) || containsL n bs

theorem startsWithL_iff (n h : List Char) :
    startsWithL n h = true ↔ n <+: h := by
  induction n generalizing h with
  | nil => simp [startsWithL]
  | cons a as ih =>
    cases h with
    | nil => simp [startsWithL]
    | cons b bs =>
      simp [startsWithL, List.cons_prefix_cons, ih, and_comm]

theorem containsL_iff (n h : List Char) :
    containsL n h = true ↔ n <:+: h := by
  induction h with
  | nil => simp [containsL, startsWithL_iff, List.infix_nil, List.prefix_nil]
  | cons b bs ih =>
    simp [containsL, startsWithL_iff, ih, List.infix_cons_iff]

/-- Drop-first-occurrence de-duplication keyed by `key`, carrying the set
of already-seen keys, mirroring the Python idiom
`if k not in seen: seen.add(k); out.append(x)` (and `dict.fromkeys` /
`set`-insertion with first-seen order). -/
def dedupByLoop {α β : Type} [DecidableEq β] (key : α → β) :
    List β → List α → List α
  | _, [] => []
  | seen, x :: xs =>
    if key x ∈ seen then dedupByLoop key seen xs
    else x :: dedupByLoop key (key x :: seen) xs

/-- The extractor's vocabulary (`known_symptoms` in `extract_symptoms`):
every non-NaN `Symptom_*` cell, lower-cased and stripped, de-duplicated
(the Python code collects them into a `set`). -/
def knownSymptoms (table : List SymptomRow) : List String :=
  dedupByLoop id []
    ((table.flatMap (fun r => r.symptoms.filterMap id)).map normalize)

/-- `extract_symptoms` (app.py, lines 115–167): lower-case the user text,
keep every known symptom that is truthy (non-empty) and occurs as a
substring of the lower-cased text. -/
def extract_symptoms (user_text : String) (table : List SymptomRow) :
    List String :=
  if table = [] then []
  else
    (knownSymptoms table).filter
      (fun s => (s != "") && containsL s.data (pyLower user_text).data)

/-! ### Claim C1 / C10 groundwork -/

theorem dedupByLoop_mem {α β : Type} [DecidableEq β] (key : α → β)
    (seen : List β) (l : List α) (x : α) :
    x ∈ dedupByLoop key seen l → x ∈ l := by
  induction l generalizing seen with
  | nil => simp [dedupByLoop]
  | cons y ys ih =>
    intro hx
    simp only [dedupByLoop] at hx
    split at hx
    · exact List.mem_cons_of_mem _ (ih _ hx)
    · rcases List.mem_cons.1 hx with h | h
      · exact h ▸ List.mem_cons_self _ _
      · exact List.mem_cons_of_mem _ (ih _ h)

theorem mem_dedupByLoop {α β : Type} [DecidableEq β] (key : α → β)
    (seen : List β) (l : List α) (x : α)
    (hx : x ∈ l) (hk : key x ∉ seen) :
    key x ∈ (dedupByLoop key seen l).map key := by
  induction l generalizing seen with
  | nil => simp at hx
  | cons y ys ih =>
    simp only [dedupByLoop]
    rcases List.mem_cons.1 hx with rfl | hmem
    · split
      · next hin => exact absurd hin hk
      · simp
    · split
      · next hin => exact ih _ hmem hk
      · by_cases hkey : key x = key y
        · simp [hkey]
        · have := ih (key y :: seen) hmem (by simp [hkey, hk])
          simpa using Or.inr this

theorem dedupByLoop_sublist {α β : Type} [DecidableEq β] (key : α → β)
    (seen : List β) (l : List α) :
    (dedupByLoop key seen l).Sublist l := by
  induction l generalizing seen with
  | nil => simp [dedupByLoop]
  | cons y ys ih =>
    simp only [dedupByLoop]
    split
    · exact (ih _).trans (List.sublist_cons_self _ _)
    · exact (ih _).cons₂ _

theorem dedupByLoop_keys_nodup {α β : Type} [DecidableEq β] (key : α → β)
    (seen : List β) (l : List α) :
    ((dedupByLoop key seen l).map key).Nodup ∧
      ∀ x ∈ dedupByLoop key seen l, key x ∉ seen := by
  induction l generalizing seen with
  | nil => simp [dedupByLoop]
  | cons y ys ih =>
    simp only [dedupByLoop]
    split
    · exact ih seen
    · next hnot =>
      obtain ⟨hnd, hseen⟩ := ih (key y :: seen)
      refine ⟨?_, ?_⟩
      · simp only [List.map_cons, List.nodup_cons]
        refine ⟨?_, hnd⟩
        intro hmem
        obtain ⟨x, hx, hkx⟩ := List.mem_map.1 hmem
        exact hseen x hx (by simp [hkx])
      · intro x hx
        rcases List.mem_cons.1 hx with rfl | hx'
        · exact hnot
        · intro hmem
          exact hseen x hx' (List.mem_cons_of_mem _ hmem)

theorem dedupByLoop_nodup {α : Type} [DecidableEq α] (l : List α) :
    (dedupByLoop (id : α → α) [] l).Nodup := by
  have h := (dedupByLoop_keys_nodup (id : α → α) [] l).1
  simpa using h

/-! ### The disease scorer (`match_diseases`, app.py lines 170–231) -/

/-- The normalised symptom multiset of one row, mirroring the inner loop of
`match_diseases`: a cell contributes `symptom_val.lower().strip()` when it
is a truthy string (so NaN cells and empty-string cells are skipped). -/
def rowSymptoms (r : SymptomRow) : List String :=
  (r.symptoms.filterMap id).filterMap
    (fun c => if c = "" then none else some (normalize c))

/-- All distinct diseases whose rows record symptom `s`
(`matching_diseases` — a Python `set`, modelled in first-seen row order). -/
def diseasesWithSymptom (table : List SymptomRow) (s : String) :
    List String :=
  dedupByLoop id []
    ((table.filter (fun r => s ∈ rowSymptoms r)).map (·.disease))

/-- `disease_scores[disease] += 1` on an insertion-ordered dict, creating
the key with value `1` when absent. -/
def bumpScore : List (String × Nat) → String → List (String × Nat)
  | [], d => [(d, 1)]
  | (k, v) :: rest, d =>
      if k = d then (k, v + 1) :: rest else (k, v) :: bumpScore rest d

/-- The accumulation loop of `match_diseases`: for each matched symptom,
bump every disease recorded for it. -/
def foldScores (table : List SymptomRow) (matched : List String) :
    List (String × Nat) :=
  matched.foldl
    (fun sc s => (diseasesWithSymptom table s).foldl bumpScore sc) []

/-- Score-descending comparison used by both `match_diseases` and
`rank_diseases` (`key=lambda x: x[1], reverse=True`). -/
def scoreGE (a b : String × Nat) : Prop := b.2 ≤ a.2

instance : DecidableRel scoreGE := fun _ _ => Nat.decLe _ _

instance : IsTotal (String × Nat) scoreGE :=
  ⟨fun a b => by unfold scoreGE; exact (Nat.le_total a.2 b.2).symm⟩

instance : IsTrans (String × Nat) scoreGE :=
  ⟨fun _ _ _ h h' => Nat.le_trans h' h⟩

/-- `match_diseases` (app.py, lines 170–231): score accumulation followed
by a stable sort on descending score (Python's `sorted` is stable;
`insertionSort` is the matching stable sort). -/
def match_diseases (matched : List String) (table : List SymptomRow) :
    List (String × Nat) :=
  if table = [] ∨ matched = [] then []
  else List.insertionSort scoreGE (foldScores table matched)

/-- Number of matched symptoms associated with disease `d` — the intended
value of `d`'s score. -/
def matchCount (matched : List String) (table : List SymptomRow)
    (d : String) : Nat :=
  matched.countP (fun s => decide (d ∈ diseasesWithSymptom table s))

/-- `rank_diseases` (app.py, lines 234–273): sort by score descending,
return the first three. -/
def rank_diseases (disease_scores : List (String × Nat)) :
    List (String × Nat) :=
  if disease_scores = [] then []
  else (List.insertionSort scoreGE disease_scores).take 3

/-! ### Association-list bookkeeping for the score dict -/

/-- The keys (disease names) of a score dict. -/
def keys (scores : List (String × Nat)) : List String := scores.map Prod.fst

/-- The value stored for disease `d`, defaulting to `0` when absent. -/
def valD (scores : List (String × Nat)) (d : String) : Nat :=
  match scores.find? (fun p => p.1 == d) with
  | some p => p.2
  | none => 0

theorem valD_nil (d : String) : valD [] d = 0 := rfl

theorem valD_cons (k : String) (v : Nat) (rest : List (String × Nat))
    (d : String) :
    valD ((k, v) :: rest) d = if k = d then v else valD rest d := by
  rcases eq_or_ne k d with rfl | h
  · simp [valD, List.find?]
  · simp [valD, List.find?, beq_eq_false_iff_ne.2 h, h]

theorem valD_bumpScore (B : List (String × Nat)) (d d' : String) :
    valD (bumpScore B d) d' = valD B d' + (if d' = d then 1 else 0) := by
  induction B with
  | nil =>
    rcases eq_or_ne d' d with rfl | h
    · simp [bumpScore, valD_cons, valD_nil]
    · simp [bumpScore, valD_cons, valD_nil, h, Ne.symm h]
  | cons p rest ih =>
    obtain ⟨k, v⟩ := p
    simp only [bumpScore]
    split
    · next hk =>
      subst hk
      rcases eq_or_ne k d' with rfl | h
      · simp [valD_cons]
      · simp [valD_cons, h, Ne.symm h]
    · next hk =>
      rcases eq_or_ne k d' with rfl | h
      · simp [valD_cons, hk]
      · simp [valD_cons, h, ih]

theorem mem_keys_bumpScore (B : List (String × Nat)) (d d' : String) :
    d' ∈ keys (bumpScore B d) ↔ d' ∈ keys B ∨ d' = d := by
  induction B with
  | nil => simp [bumpScore, keys]
  | cons p rest ih =>
    obtain ⟨k, v⟩ := p
    simp only [bumpScore]
    split
    · next hk =>
      subst hk
      simp only [keys, List.map_cons, List.mem_cons]
      tauto
    · simp only [keys, List.map_cons, List.mem_cons] at ih ⊢
      tauto

theorem keysNodup_bumpScore (B : List (String × Nat)) (d : String)
    (h : (keys B).Nodup) : (keys (bumpScore B d)).Nodup := by
  induction B with
  | nil => simp [bumpScore, keys]
  | cons p rest ih =>
    obtain ⟨k, v⟩ := p
    simp only [keys, List.map_cons, List.nodup_cons] at h
    simp only [bumpScore]
    split
    · next hk => subst hk; simpa [keys] using h
    · next hk =>
      simp only [keys, List.map_cons, List.nodup_cons]
      constructor
      · intro hmem
        rcases (mem_keys_bumpScore rest d k).1 hmem with h' | rfl
        · exact h.1 h'
        · exact hk rfl
      · exact ih h.2

theorem mem_iff_keys_valD (B : List (String × Nat))
    (h : (keys B).Nodup) (d : String) (n : Nat) :
    (d, n) ∈ B ↔ d ∈ keys B ∧ valD B d = n := by
  induction B with
  | nil => simp [keys, valD_nil]
  | cons p rest ih =>
    obtain ⟨k, v⟩ := p
    simp only [keys, List.map_cons, List.nodup_cons] at h
    rcases eq_or_ne k d with rfl | hkd
    · simp only [List.mem_cons, keys, List.map_cons, valD_cons, if_pos rfl]
      constructor
      · rintro (hp | hmem)
        · injection hp with h1 h2
          subst h2
          simp
        · exact absurd (List.mem_map.2 ⟨(k, n), hmem, rfl⟩) h.1
      · rintro ⟨-, rfl⟩
        simp
    · simp only [List.mem_cons, keys, List.map_cons, valD_cons, if_neg hkd]
      rw [ih h.2]
      simp only [keys]
      constructor
      · rintro (hp | ⟨hmem, hval⟩)
        · injection hp with h1 h2
          exact absurd h1.symm hkd
        · exact ⟨Or.inr hmem, hval⟩
      · rintro ⟨hd, hval⟩
        rcases hd with rfl | hmem
        · exact absurd rfl hkd
        · exact Or.inr ⟨hmem, hval⟩

theorem valD_foldl_bump (ds : List String) (hnd : ds.Nodup)
    (B : List (String × Nat)) (d : String) :
    valD (ds.foldl bumpScore B) d = valD B d + (if d ∈ ds then 1 else 0) := by
  induction ds generalizing B with
  | nil => simp
  | cons a rest ih =>
    simp only [List.nodup_cons] at hnd
    simp only [List.foldl_cons, ih hnd.2, valD_bumpScore]
    rcases eq_or_ne d a with rfl | h
    · have : d ∉ rest := hnd.1
      simp [this]
    · simp [h, List.mem_cons]

theorem mem_keys_foldl_bump (ds : List String) (B : List (String × Nat))
    (d : String) :
    d ∈ keys (ds.foldl bumpScore B) ↔ d ∈ keys B ∨ d ∈ ds := by
  induction ds generalizing B with
  | nil => simp
  | cons a rest ih =>
    simp only [List.foldl_cons, ih, mem_keys_bumpScore, List.mem_cons]
    tauto

theorem keysNodup_foldl_bump (ds : List String) (B : List (String × Nat))
    (h : (keys B).Nodup) : (keys (ds.foldl bumpScore B)).Nodup := by
  induction ds generalizing B with
  | nil => simpa
  | cons a rest ih => exact ih _ (keysNodup_bumpScore _ _ h)

theorem diseasesWithSymptom_nodup (table : List SymptomRow) (s : String) :
    (diseasesWithSymptom table s).Nodup := by
  unfold diseasesWithSymptom
  exact dedupByLoop_nodup _

theorem valD_foldScores_aux (matched : List String)
    (table : List SymptomRow) (B : List (String × Nat)) (d : String) :
    valD (matched.foldl
        (fun sc s => (diseasesWithSymptom table s).foldl bumpScore sc) B) d
      = valD B d + matchCount matched table d := by
  induction matched generalizing B with
  | nil => simp [matchCount]
  | cons s rest ih =>
    simp only [List.foldl_cons, ih, matchCount, List.countP_cons]
    rw [valD_foldl_bump _ (diseasesWithSymptom_nodup table s)]
    by_cases h : d ∈ diseasesWithSymptom table s
    · simp [h, matchCount]
      omega
    · simp [h, matchCount]

theorem mem_keys_foldScores_aux (matched : List String)
    (table : List SymptomRow) (B : List (String × Nat)) (d : String) :
    d ∈ keys (matched.foldl
        (fun sc s => (diseasesWithSymptom table s).foldl bumpScore sc) B)
      ↔ d ∈ keys B ∨ 0 < matchCount matched table d := by
  induction matched generalizing B with
  | nil => simp [matchCount]
  | cons s rest ih =>
    simp only [List.foldl_cons, ih, mem_keys_foldl_bump, matchCount,
      List.countP_cons]
    by_cases h : d ∈ diseasesWithSymptom table s <;>
      simp [h, matchCount]

theorem keysNodup_foldScores (matched : List String)
    (table : List SymptomRow) :
    (keys (foldScores table matched)).Nodup := by
  have : ∀ B, (keys B).Nodup →
      (keys (matched.foldl
        (fun sc s => (diseasesWithSymptom table s).foldl bumpScore sc) B)).Nodup := by
    induction matched with
    | nil => intro B hB; simpa
    | cons s rest ih =>
      intro B hB
      exact ih _ (keysNodup_foldl_bump _ _ hB)
  exact this [] (by simp [keys])

theorem valD_foldScores (matched : List String) (table : List SymptomRow)
    (d : String) :
    valD (foldScores table matched) d = matchCount matched table d := by
  have h := valD_foldScores_aux matched table [] d
  simpa [foldScores, valD_nil] using h

theorem mem_keys_foldScores (matched : List String)
    (table : List SymptomRow) (d : String) :
    d ∈ keys (foldScores table matched) ↔
      0 < matchCount matched table d := by
  have h := mem_keys_foldScores_aux matched table [] d
  simpa [foldScores, keys] using h

/-- Membership characterisation of the scorer's output: `(d, n)` is an
entry of `match_diseases matched table` exactly when `n` is the (positive)
number of matched symptoms associated with `d`. -/
theorem mem_match_diseases (matched : List String)
    (table : List SymptomRow) (d : String) (n : Nat) :
    (d, n) ∈ match_diseases matched table ↔
      0 < matchCount matched table d ∧ n = matchCount matched table d := by
  unfold match_diseases
  split
  · next hguard =>
    rcases hguard with rfl | rfl
    · have hz : matchCount matched [] d = 0 := by
        simp only [matchCount, List.countP_eq_zero]
        intro s hs
        simp [diseasesWithSymptom, dedupByLoop]
      simp [hz]
    · simp [matchCount]
  · rw [(List.perm_insertionSort scoreGE _).mem_iff,
      mem_iff_keys_valD _ (keysNodup_foldScores matched table),
      mem_keys_foldScores, valD_foldScores]
    exact ⟨fun h => ⟨h.1, h.2.symm⟩, fun h => ⟨h.1, h.2.symm⟩⟩

/-! ### Reasoning synthesizer (`generate_reasoning`, app.py lines 276–316) -/

/-- Closing sentence for score ≥ 3. -/
def HIGH_NOTE : String :=
  "The strong symptom overlap indicates a high likelihood of this condition."

/-- Closing sentence for score = 2. -/
def MODERATE_NOTE : String :=
  "The moderate symptom overlap suggests this condition is worth investigating."

/-- Closing sentence for score ≤ 1. -/
def FURTHER_NOTE : String :=
  "While symptoms are present, further evaluation is recommended."

/-- The score-dependent confidence note appended by `generate_reasoning`. -/
def qualifierNote (score : Nat) : String :=
  if 3 ≤ score then HIGH_NOTE
  else if score = 2 then MODERATE_NOTE
  else FURTHER_NOTE

/-- Python's `sep.join(l)`. -/
def joinSep (sep : String) : List String → String
  | [] => ""
  | [s] => s
  | s :: rest => s ++ sep ++ joinSep sep rest

/-- `', '.join(matched_symptoms) if len(matched_symptoms) > 1 else
matched_symptoms[0]`. -/
def symptomString (matched : List String) : String :=
  if matched.length > 1 then joinSep ", " matched else matched.headD ""

/-- The leading sentence of the generated reasoning. -/
def reasoningBase (matched : List String) (disease : String)
    (score : Nat) : String :=
  "The prediction is based on the presence of " ++ toString score ++
    " matching symptom(s): " ++ symptomString matched ++
    " commonly associated with " ++ disease ++ ". "

/-- `generate_reasoning` (app.py, lines 276–316). -/
def generate_reasoning (matched : List String) (disease : String)
    (score : Nat) : String :=
  if matched = [] ∨ score = 0 then
    "Unable to generate reasoning for " ++ disease
  else reasoningBase matched disease score ++ qualifierNote score

/-! ### Confidence (`predict`, app.py lines 615–630)

The Python float expression `round(min(score / total, 1.0), 2)` is
idealised over `ℚ`; rounding to two decimal places is
`⌊100·q + 1/2⌋ / 100` (the claims under verification are insensitive to
the tie-breaking rule of `round`). -/

/-- Round a rational to two decimal places. -/
def round2 (q : ℚ) : ℚ := (((q * 100 + 1 / 2).floor : ℤ) : ℚ) / 100

theorem ratFloor_eq_intFloor (q : ℚ) : (q.floor : ℤ) = ⌊q⌋ :=
  (Rat.floor_def' q).trans Rat.floor_def.symm

/-- Confidence of a disease: score over total matched symptoms, capped at
1, rounded to two decimals (`score / len(matched)`; `ℚ` division by zero
is `0`, matching the `if matched else 0` guard). -/
def confidence (score total : Nat) : ℚ :=
  round2 (min ((score : ℚ) / (total : ℚ)) 1)

/-! ### Detail aggregation (`get_disease_details`, app.py lines 398–488)

The `Medication` / `Diet` CSV cells hold serialized Python list literals
parsed by `ast.literal_eval` via `parse_string_list`; the cell is
modelled as the already-parsed `List String` (none of the claims under
verification concern the literal parser itself). -/

/-- Constant advisory dosage attached to every parsed medication name. -/
def DOSAGE_NOTE : String := "As prescribed by healthcare provider"

/-- A structured medication entry (`{'name': ..., 'dosage': ...}`). -/
structure Medication where
  name : String
  dosage : String
  deriving DecidableEq, Repr

/-- The result of `get_disease_details`. -/
structure Details where
  description : String
  medications : List Medication
  precautions : List String
  dietRecommended : List String
  dietAvoid : List String
  deriving DecidableEq, Repr

/-- `get_disease_details`: case-insensitive lookups over the auxiliary
tables; a miss yields the placeholder description / empty collections. -/
def get_disease_details (descs : List (String × String))
    (meds : List (String × List String))
    (precs : List (String × String))
    (diets : List (String × List String)) (disease_name : String) :
    Details :=
  { description :=
      ((descs.find? (fun p => pyLower p.1 == pyLower disease_name)).map
        Prod.snd).getD "No description available"
    medications :=
      (meds.filter (fun p => pyLower p.1 == pyLower disease_name)).flatMap
        (fun p => p.2.map (fun nm => ⟨nm, DOSAGE_NOTE⟩))
    precautions :=
      (precs.filter (fun p => pyLower p.1 == pyLower disease_name)).map
        Prod.snd
    dietRecommended :=
      (diets.filter (fun p => pyLower p.1 == pyLower disease_name)).flatMap
        Prod.snd
    dietAvoid := [] }

/-! ### The `/predict` endpoint (app.py lines 500–717) -/

/-- The mandatory disclaimer attached to every JSON response. -/
def DISCLAIMER : String :=
  "\n⚠️ MEDICAL DISCLAIMER\n\nThis information is for clinical decision support only and is NOT a final medical diagnosis. \n\nThe results provided by this chatbot are based on symptom matching algorithms and should NEVER be used as a substitute for professional medical advice, diagnosis, or treatment.\n\nIMPORTANT:\n• Always consult with a qualified healthcare professional for proper diagnosis\n• In case of medical emergency, call emergency services immediately\n• Self-diagnosis based on this tool may delay critical treatment\n• Individual medical conditions require personalized clinical assessment\n• This tool does not account for patient-specific factors, medical history, or comorbidities\n\nBy using this tool, you acknowledge that you understand these limitations and assume full responsibility for any decisions made based on its output.\n"

/-- Fixed clause closing the reasoning of every successful analysis. -/
def CONSULT_NOTE : String :=
  " Please consult a qualified healthcare professional for proper diagnosis and treatment."

/-- One entry of the `diseases` array of the response. -/
structure DiseaseEntry where
  rank : Nat
  name : String
  confidence : ℚ
  symptom_count : Nat
  deriving DecidableEq, Repr

/-- The JSON envelope of the `/predict` endpoint.  Branches of the Python
code that omit a key correspond to the default value here. -/
structure Response where
  success : Bool
  error : Option String := none
  received_symptoms : Option String := none
  matched_symptoms : List String := []
  diseases : List DiseaseEntry := []
  reasoning : String := ""
  description : String := ""
  medications : List Medication := []
  precautions : List String := []
  dietRecommended : List String := []
  dietAvoid : List String := []
  disclaimer : String
  deriving DecidableEq, Repr

/-- The ranked `diseases_list` of the success branch (ranks start at 1;
confidence per app.py lines 615–630). -/
def diseasesList (top : List (String × Nat)) (total : Nat) :
    List DiseaseEntry :=
  top.enum.map (fun p => ⟨p.1 + 1, p.2.1, confidence p.2.2 total, p.2.2⟩)

/-- `" Other possible conditions include: ..."` clause (app.py 651–653). -/
def otherConditions (ds : List DiseaseEntry) : String :=
  " Other possible conditions include: " ++
    joinSep ", "
      (ds.map (fun d =>
        d.name ++ " (" ++ toString d.symptom_count ++ " symptom(s))")) ++
    "."

/-- `all_medications`: medications of every top-ranked disease,
concatenated in rank order (app.py 657–664). -/
def topMedications (descs : List (String × String))
    (meds : List (String × List String)) (precs : List (String × String))
    (diets : List (String × List String)) (top : List (String × Nat)) :
    List Medication :=
  top.flatMap
    (fun p => (get_disease_details descs meds precs diets p.1).medications)

/-- `all_precautions`: precautions of every top-ranked disease. -/
def topPrecautions (descs : List (String × String))
    (meds : List (String × List String)) (precs : List (String × String))
    (diets : List (String × List String)) (top : List (String × Nat)) :
    List String :=
  top.flatMap
    (fun p => (get_disease_details descs meds precs diets p.1).precautions)

/-- The success-branch response (app.py lines 609–706). -/
def successResponse (descs : List (String × String))
    (meds : List (String × List String)) (precs : List (String × String))
    (diets : List (String × List String)) (symptoms_text : String)
    (matched : List String) (top : List (String × Nat)) : Response :=
  let diseases_list := diseasesList top matched.length
  let top_entry := diseases_list.headD ⟨0, "", 0, 0⟩
  let top_details := get_disease_details descs meds precs diets top_entry.name
  { success := true
    received_symptoms := some symptoms_text
    matched_symptoms := matched
    diseases := diseases_list
    reasoning :=
      generate_reasoning matched top_entry.name top_entry.symptom_count ++
        (if diseases_list.length > 1 then
          otherConditions (diseases_list.drop 1)
        else "") ++
        CONSULT_NOTE
    description := top_details.description
    medications :=
      dedupByLoop Medication.name []
        (topMedications descs meds precs diets top)
    precautions :=
      dedupByLoop id [] (topPrecautions descs meds precs diets top)
    dietRecommended :=
      dedupByLoop id []
        (top.flatMap (fun p =>
          (get_disease_details descs meds precs diets p.1).dietRecommended))
    dietAvoid :=
      dedupByLoop id []
        (top.flatMap (fun p =>
          (get_disease_details descs meds precs diets p.1).dietAvoid))
    disclaimer := DISCLAIMER }

/-- Failure response for insufficient recognised symptoms (app.py 556–568). -/
def insufficientResponse (symptoms_text : String)
    (matched : List String) : Response :=
  { success := false
    error := some ("Insufficient symptoms. Please provide at least 1 known medical symptom(s). You entered: " ++ symptoms_text)
    received_symptoms := some symptoms_text
    matched_symptoms := matched
    reasoning := "Analysis requires at least 1 known symptom(s) to proceed."
    description := "Unable to analyze - insufficient symptom data"
    disclaimer := DISCLAIMER }

/-- Failure response when no disease matches (app.py 577–589). -/
def noDiseaseResponse (symptoms_text : String)
    (matched : List String) : Response :=
  { success := false
    error := some "No diseases could be matched to the provided symptoms."
    received_symptoms := some symptoms_text
    matched_symptoms := matched
    reasoning := "While symptoms were recognized, no disease associations exist in the database."
    description := "Analysis incomplete - no disease mapping available"
    disclaimer := DISCLAIMER }

/-- Failure response when ranking yields nothing (app.py 595–607). -/
def rankFailResponse (symptoms_text : String)
    (matched : List String) : Response :=
  { success := false
    error := some "Unable to rank diseases."
    received_symptoms := some symptoms_text
    matched_symptoms := matched
    reasoning := "Disease ranking failed."
    description := "Analysis incomplete - ranking error"
    disclaimer := DISCLAIMER }

/-- The `except`-branch response of `predict` (app.py 713–717). -/
def internalFaultResponse (msg : String) : Response :=
  { success := false
    error := some ("Internal server error: " ++ msg)
    disclaimer := DISCLAIMER }

/-- The `/predict` endpoint.  The request body is modelled as
`Option String`: `none` for a missing/empty JSON body, `some raw` for the
value of the `symptoms` field (a missing field is Python's `''` default,
i.e. `some ""`). -/
def predictModel (table : List SymptomRow)
    (descs : List (String × String)) (meds : List (String × List String))
    (precs : List (String × String)) (diets : List (String × List String))
    (data : Option String) : Response :=
  match data with
  | none =>
      { success := false
        error := some "No JSON data provided"
        disclaimer := DISCLAIMER }
  | some raw =>
      let symptoms_text := pyStrip raw
      if symptoms_text = "" then
        { success := false
          error := some "Symptoms field is required and cannot be empty"
          disclaimer := DISCLAIMER }
      else
        let matched := extract_symptoms symptoms_text table
        if matched.length < 1 then insufficientResponse symptoms_text matched
        else
          let disease_scores := match_diseases matched table
          if disease_scores = [] then noDiseaseResponse symptoms_text matched
          else
            let top := rank_diseases disease_scores
            if top = [] then rankFailResponse symptoms_text matched
            else
              successResponse descs meds precs diets symptoms_text matched top

/-! ### Error handlers (app.py lines 755–772) -/

/-- Shape of the 404/500 error-handler responses. -/
structure ErrorResponse where
  error : String
  status : Nat
  disclaimer : String
  deriving DecidableEq, Repr

/-- The 404 handler (`not_found`). -/
def not_found : ErrorResponse :=
  { error := "Endpoint not found", status := 404, disclaimer := DISCLAIMER }

/-- The 500 handler (`internal_error`). -/
def internal_error : ErrorResponse :=
  { error := "Internal server error", status := 500, disclaimer := DISCLAIMER }

/-! ### Concrete fixtures for witnesses and counterexamples -/

/-- Tiny concrete reference table used by witnesses: two rows for `Flu`
(recording `fever` twice) and one for `Cold`. -/
def tinyTable : List SymptomRow :=
  [⟨"Flu", [some "fever", some "cough"]⟩,
   ⟨"Flu", [some "fever", none]⟩,
   ⟨"Cold", [some "cough", none]⟩]

/-- Reference table whose single symptom cell is whitespace-only, so its
normalised form is the empty token. -/
def whitespaceTable : List SymptomRow := [⟨"D", [some " "]⟩]

/-! ### Claims C1 and C10: the symptom extractor -/

/-- **C1** (amended).  For every input text and vocabulary built from the
reference table, extraction returns exactly the set of *non-empty*
vocabulary tokens whose normalised (lower-cased, trimmed) form occurs as
a substring of the lower-cased input text; in particular the result is a
subset of the vocabulary, and tokens that are not substrings of the
lower-cased input are never returned. -/
theorem c1_extract_exact_match_set (user_text : String)
    (table : List SymptomRow) (s : String) :
    s ∈ extract_symptoms user_text table ↔
      s ∈ knownSymptoms table ∧ s ≠ "" ∧
        s.data <:+: (pyLower user_text).data := by
  unfold extract_symptoms
  split
  · next h =>
    subst h
    simp [knownSymptoms, dedupByLoop]
  · rw [List.mem_filter]
    simp [containsL_iff, and_assoc]

/-- **C1** counterexample to the claim as stated: over `whitespaceTable`
the vocabulary contains the empty token, the empty token is a substring
of the lower-cased input `"xyz"`, yet extraction does not return it — so
the result is not exactly the set of vocabulary tokens whose normalised
form occurs as a substring of the input. -/
theorem c1_counterexample :
    "" ∈ knownSymptoms whitespaceTable ∧
      ("" : String).data <:+: (pyLower "xyz").data ∧
      "" ∉ extract_symptoms "xyz" whitespaceTable := by
  refine ⟨by decide, List.nil_infix, by decide⟩

/-- **C10**: the empty-string token is never an element of the extraction
result, even though the empty string is a substring of every input: the
extractor skips falsy tokens, so a blank or whitespace-only symptom cell
in the reference table (which normalises to the empty string) cannot make
every input match. -/
theorem c10_empty_token_never_extracted (user_text : String)
    (table : List SymptomRow) :
    "" ∉ extract_symptoms user_text table := by
  unfold extract_symptoms
  split
  · simp
  · intro h
    have h2 := (List.mem_filter.1 h).2
    simp at h2

/-! ### Claims C2 and C3: the disease scorer -/

theorem countP_eq_card_filter {l : List String} (hnd : l.Nodup)
    (p : String → Prop) [DecidablePred p] :
    l.countP (fun s => decide (p s)) = (l.toFinset.filter p).card := by
  rw [List.countP_eq_length_filter,
    ← List.toFinset_card_of_nodup (hnd.filter _)]
  congr 1
  rw [List.toFinset_filter]
  ext a
  simp

/-- **C2**: for every duplicate-free matched-symptom list and every
association table, the scorer's output maps each disease `d` it mentions
to exactly the number of distinct matched symptoms associated with `d`
(`matchCount` counts matched symptoms, not rows, so a disease recording
the same symptom in several historical rows still gains exactly 1 for
that symptom), and an empty matched list yields the empty mapping. -/
theorem c2_match_diseases_counts (matched : List String)
    (table : List SymptomRow) (hnd : matched.Nodup) :
    (∀ d n, (d, n) ∈ match_diseases matched table ↔
        0 < n ∧ n = (matched.toFinset.filter
          (fun s => d ∈ diseasesWithSymptom table s)).card) ∧
      match_diseases [] table = [] := by
  constructor
  · intro d n
    rw [mem_match_diseases]
    rw [show matchCount matched table d =
        (matched.toFinset.filter
          (fun s => d ∈ diseasesWithSymptom table s)).card from
      countP_eq_card_filter hnd _]
    constructor
    · rintro ⟨hpos, rfl⟩; exact ⟨hpos, rfl⟩
    · rintro ⟨hpos, rfl⟩; exact ⟨hpos, rfl⟩
  · simp [match_diseases]

/-- **C2** witness: on `tinyTable` with matched symptoms
`["fever", "cough"]`, `Flu` (which records `fever` in two rows) is scored
exactly 2 — once per distinct matched symptom. -/
theorem c2_witness :
    ("Flu", 2) ∈ match_diseases ["fever", "cough"] tinyTable ↔
      0 < 2 ∧ 2 = ((["fever", "cough"] : List String).toFinset.filter
        (fun s => "Flu" ∈ diseasesWithSymptom tinyTable s)).card :=
  (c2_match_diseases_counts ["fever", "cough"] tinyTable (by decide)).1
    "Flu" 2

/-- **C3**: every score present in the scorer's output lies in
`[1, |matched|]`; a disease with zero overlap is never an entry. -/
theorem c3_score_range (matched : List String) (table : List SymptomRow)
    (d : String) (n : Nat)
    (h : (d, n) ∈ match_diseases matched table) :
    1 ≤ n ∧ n ≤ matched.length := by
  obtain ⟨hpos, rfl⟩ := (mem_match_diseases matched table d n).1 h
  exact ⟨hpos, List.countP_le_length _⟩

/-- **C3** witness: the `Flu` entry of the score mapping for
`["fever", "cough"]` over `tinyTable` has its score in range. -/
theorem c3_witness :
    1 ≤ 2 ∧ 2 ≤ (["fever", "cough"] : List String).length :=
  c3_score_range ["fever", "cough"] tinyTable "Flu" 2 (by decide)

/-! ### Claim C4: the ranker -/

/-- **C4**: the ranker returns at most 3 entries, their scores are
non-increasing, and the empty mapping yields the empty sequence. -/
theorem c4_rank_top3_sorted (scores : List (String × Nat)) :
    (rank_diseases scores).length ≤ 3 ∧
      ((rank_diseases scores).map Prod.snd).Sorted (fun a b : Nat => b ≤ a) ∧
      rank_diseases [] = [] := by
  refine ⟨?_, ?_, by simp [rank_diseases]⟩
  · unfold rank_diseases
    split
    · simp
    · exact List.length_take_le 3 _
  · unfold rank_diseases
    split
    · simp
    · have hs : (List.insertionSort scoreGE scores).Sorted scoreGE :=
        List.sorted_insertionSort scoreGE scores
      have hts : ((List.insertionSort scoreGE scores).take 3).Sorted scoreGE :=
        List.Pairwise.sublist (List.take_sublist _ _) hs
      exact List.Pairwise.map _ (fun a b hab => hab) hts

/-! ### Claim C8: degenerate reasoning -/

/-- **C8**: with no matched symptoms or score 0, the reasoning
synthesizer returns the fixed "unable to generate reasoning" message
(no failure). -/
theorem c8_degenerate_reasoning (matched : List String) (disease : String)
    (score : Nat) (h : matched = [] ∨ score = 0) :
    generate_reasoning matched disease score =
      "Unable to generate reasoning for " ++ disease := by
  unfold generate_reasoning
  rw [if_pos h]

/-- **C8** witness at empty matched list and score 0. -/
theorem c8_witness :
    generate_reasoning [] "Influenza" 0 =
      "Unable to generate reasoning for " ++ "Influenza" :=
  c8_degenerate_reasoning [] "Influenza" 0 (Or.inl rfl)

/-! ### Branch analysis of the endpoint -/

/-- Every run of `predictModel` either fails (no diseases reported) or
produces the success-branch response for the extracted symptoms and the
ranked scores. -/
theorem predictModel_eq_cases (table : List SymptomRow)
    (descs : List (String × String)) (meds : List (String × List String))
    (precs : List (String × String)) (diets : List (String × List String))
    (data : Option String) :
    ((predictModel table descs meds precs diets data).success = false ∧
      (predictModel table descs meds precs diets data).diseases = []) ∨
    (∃ raw, data = some raw ∧
      predictModel table descs meds precs diets data =
        successResponse descs meds precs diets (pyStrip raw)
          (extract_symptoms (pyStrip raw) table)
          (rank_diseases (match_diseases
            (extract_symptoms (pyStrip raw) table) table))) := by
  cases data with
  | none => exact Or.inl ⟨rfl, rfl⟩
  | some raw =>
    simp only [predictModel]
    split
    · exact Or.inl ⟨rfl, rfl⟩
    · split
      · exact Or.inl ⟨rfl, rfl⟩
      · split
        · exact Or.inl ⟨rfl, rfl⟩
        · split
          · exact Or.inl ⟨rfl, rfl⟩
          · exact Or.inr ⟨raw, rfl, rfl⟩

/-! ### Claim C6: the disclaimer is in every response -/

/-- **C6**: every JSON response carries the fixed medical disclaimer —
all branches of the analysis endpoint (success, missing JSON, empty
input, insufficient recognition, no disease association, ranking
failure), the internal-fault response, and the 404/500 handlers. -/
theorem c6_disclaimer_everywhere (table : List SymptomRow)
    (descs : List (String × String)) (meds : List (String × List String))
    (precs : List (String × String)) (diets : List (String × List String))
    (data : Option String) (msg : String) :
    (predictModel table descs meds precs diets data).disclaimer =
        DISCLAIMER ∧
      (internalFaultResponse msg).disclaimer = DISCLAIMER ∧
      not_found.disclaimer = DISCLAIMER ∧
      internal_error.disclaimer = DISCLAIMER := by
  refine ⟨?_, rfl, rfl, rfl⟩
  cases data with
  | none => rfl
  | some raw =>
    simp only [predictModel]
    split
    · rfl
    · split
      · rfl
      · split
        · rfl
        · split
          · rfl
          · rfl

/-! ### Field equations of the success response -/

theorem successResponse_success (descs : List (String × String))
    (meds : List (String × List String)) (precs : List (String × String))
    (diets : List (String × List String)) (st : String)
    (matched : List String) (top : List (String × Nat)) :
    (successResponse descs meds precs diets st matched top).success =
      true := rfl

theorem successResponse_diseases (descs : List (String × String))
    (meds : List (String × List String)) (precs : List (String × String))
    (diets : List (String × List String)) (st : String)
    (matched : List String) (top : List (String × Nat)) :
    (successResponse descs meds precs diets st matched top).diseases =
      diseasesList top matched.length := rfl

theorem successResponse_matched (descs : List (String × String))
    (meds : List (String × List String)) (precs : List (String × String))
    (diets : List (String × List String)) (st : String)
    (matched : List String) (top : List (String × Nat)) :
    (successResponse descs meds precs diets st matched
        top).matched_symptoms = matched := rfl

theorem successResponse_medications (descs : List (String × String))
    (meds : List (String × List String)) (precs : List (String × String))
    (diets : List (String × List String)) (st : String)
    (matched : List String) (top : List (String × Nat)) :
    (successResponse descs meds precs diets st matched top).medications =
      dedupByLoop Medication.name []
        (topMedications descs meds precs diets top) := rfl

theorem successResponse_precautions (descs : List (String × String))
    (meds : List (String × List String)) (precs : List (String × String))
    (diets : List (String × List String)) (st : String)
    (matched : List String) (top : List (String × Nat)) :
    (successResponse descs meds precs diets st matched top).precautions =
      dedupByLoop id [] (topPrecautions descs meds precs diets top) := rfl

/-! ### Claim C5: confidence values -/

theorem confidence_nonneg (s t : Nat) : 0 ≤ confidence s t := by
  unfold confidence round2
  rw [ratFloor_eq_intFloor]
  have hq0 : (0 : ℚ) ≤ min ((s : ℚ) / (t : ℚ)) 1 :=
    le_min (div_nonneg (by positivity) (by positivity)) zero_le_one
  have hfl : (0 : ℤ) ≤ ⌊min ((s : ℚ) / (t : ℚ)) 1 * 100 + 1 / 2⌋ :=
    Int.floor_nonneg.2 (by linarith)
  have hq : (0 : ℚ) ≤ (⌊min ((s : ℚ) / (t : ℚ)) 1 * 100 + 1 / 2⌋ : ℚ) := by
    exact_mod_cast hfl
  exact div_nonneg hq (by norm_num)

theorem confidence_le_one (s t : Nat) : confidence s t ≤ 1 := by
  unfold confidence round2
  rw [ratFloor_eq_intFloor]
  have hq1 : min ((s : ℚ) / (t : ℚ)) 1 ≤ 1 := min_le_right _ _
  have harg : min ((s : ℚ) / (t : ℚ)) 1 * 100 + 1 / 2 ≤ 201 / 2 := by
    linarith
  have h100 : ⌊(201 / 2 : ℚ)⌋ = 100 := by
    rw [Int.floor_eq_iff]
    norm_num
  have hfl : ⌊min ((s : ℚ) / (t : ℚ)) 1 * 100 + 1 / 2⌋ ≤ (100 : ℤ) :=
    h100 ▸ Int.floor_le_floor harg
  rw [div_le_one (by norm_num)]
  exact_mod_cast hfl

theorem mem_diseasesList (top : List (String × Nat)) (total : Nat)
    (e : DiseaseEntry) (he : e ∈ diseasesList top total) :
    e.confidence = confidence e.symptom_count total := by
  unfold diseasesList at he
  obtain ⟨p, _, rfl⟩ := List.mem_map.1 he
  rfl

/-- **C5**: every entry of the `diseases` array of an analysis response
reports as confidence exactly its matched-symptom count divided by the
total number of matched symptoms, capped at 1 and rounded to two decimal
places, and that value lies in `[0, 1]`. -/
theorem c5_confidence (table : List SymptomRow)
    (descs : List (String × String)) (meds : List (String × List String))
    (precs : List (String × String)) (diets : List (String × List String))
    (data : Option String) (i : Nat)
    (hi : i <
      (predictModel table descs meds precs diets data).diseases.length) :
    ((predictModel table descs meds precs diets data).diseases.getD i
        ⟨0, "", 0, 0⟩).confidence =
      confidence
        ((predictModel table descs meds precs diets data).diseases.getD i
          ⟨0, "", 0, 0⟩).symptom_count
        (predictModel table descs meds precs diets
          data).matched_symptoms.length ∧
      0 ≤ ((predictModel table descs meds precs diets data).diseases.getD i
        ⟨0, "", 0, 0⟩).confidence ∧
      ((predictModel table descs meds precs diets data).diseases.getD i
        ⟨0, "", 0, 0⟩).confidence ≤ 1 := by
  rcases predictModel_eq_cases table descs meds precs diets data with
    ⟨-, hdis⟩ | ⟨raw, -, heq⟩
  · rw [hdis] at hi
    exact absurd hi (by simp)
  · rw [heq] at hi ⊢
    rw [successResponse_diseases] at hi ⊢
    rw [successResponse_matched]
    have hmem : (diseasesList
        (rank_diseases (match_diseases
          (extract_symptoms (pyStrip raw) table) table))
        (extract_symptoms (pyStrip raw) table).length).getD i ⟨0, "", 0, 0⟩ ∈
        diseasesList
          (rank_diseases (match_diseases
            (extract_symptoms (pyStrip raw) table) table))
          (extract_symptoms (pyStrip raw) table).length := by
      rw [List.getD_eq_getElem _ _ hi]
      exact List.getElem_mem hi
    have hconf := mem_diseasesList _ _ _ hmem
    exact ⟨hconf, by rw [hconf]; exact confidence_nonneg _ _,
      by rw [hconf]; exact confidence_le_one _ _⟩

/-! ### Auxiliary fixtures for the endpoint witnesses -/

/-- Descriptions table for witnesses. -/
def tinyDescs : List (String × String) :=
  [("Flu", "A viral infection."), ("Cold", "A mild viral infection.")]

/-- Medications table for witnesses (cells already parsed). -/
def tinyMeds : List (String × List String) :=
  [("Flu", ["Oseltamivir", "Paracetamol"]), ("Cold", ["Paracetamol"])]

/-- Precautions table for witnesses. -/
def tinyPrecs : List (String × String) :=
  [("Flu", "rest"), ("Flu", "drink fluids"), ("Cold", "rest")]

/-- Diet table for witnesses (cells already parsed). -/
def tinyDiets : List (String × List String) :=
  [("Flu", ["soup"]), ("Cold", ["soup"])]

/-- **C5** witness: the top entry of the analysis of
`"fever and cough"` over the tiny fixtures satisfies the confidence
contract. -/
theorem c5_witness :
    ((predictModel tinyTable tinyDescs tinyMeds tinyPrecs tinyDiets
        (some "fever and cough")).diseases.getD 0 ⟨0, "", 0, 0⟩).confidence =
      confidence
        ((predictModel tinyTable tinyDescs tinyMeds tinyPrecs tinyDiets
          (some "fever and cough")).diseases.getD 0
            ⟨0, "", 0, 0⟩).symptom_count
        (predictModel tinyTable tinyDescs tinyMeds tinyPrecs tinyDiets
          (some "fever and cough")).matched_symptoms.length ∧
      0 ≤ ((predictModel tinyTable tinyDescs tinyMeds tinyPrecs tinyDiets
        (some "fever and cough")).diseases.getD 0 ⟨0, "", 0, 0⟩).confidence ∧
      ((predictModel tinyTable tinyDescs tinyMeds tinyPrecs tinyDiets
        (some "fever and cough")).diseases.getD 0
          ⟨0, "", 0, 0⟩).confidence ≤ 1 :=
  c5_confidence tinyTable tinyDescs tinyMeds tinyPrecs tinyDiets
    (some "fever and cough") 0 (by decide)

/-! ### Claim C9: aggregation and de-duplication -/

/-- **C9**: in every successful analysis response the medications list
has pairwise-distinct names and the precautions list has no repeated
entry; the aggregation draws from **all** top-ranked diseases (every
medication name and precaution of every ranked disease appears in the
response), and de-duplication preserves first-seen order (the emitted
lists are sublists of the rank-ordered concatenations). -/
theorem c9_aggregation_dedup (table : List SymptomRow)
    (descs : List (String × String)) (meds : List (String × List String))
    (precs : List (String × String)) (diets : List (String × List String))
    (data : Option String)
    (h : (predictModel table descs meds precs diets data).success = true) :
    ((predictModel table descs meds precs diets data).medications.map
        Medication.name).Nodup ∧
      (predictModel table descs meds precs diets data).precautions.Nodup ∧
      (∀ p ∈ rank_diseases (match_diseases
          (predictModel table descs meds precs diets data).matched_symptoms
          table),
        (∀ m ∈ (get_disease_details descs meds precs diets p.1).medications,
          m.name ∈ (predictModel table descs meds precs diets
            data).medications.map Medication.name) ∧
        (∀ q ∈ (get_disease_details descs meds precs diets p.1).precautions,
          q ∈ (predictModel table descs meds precs diets
            data).precautions)) ∧
      (predictModel table descs meds precs diets data).medications.Sublist
        (topMedications descs meds precs diets
          (rank_diseases (match_diseases
            (predictModel table descs meds precs diets
              data).matched_symptoms table))) ∧
      (predictModel table descs meds precs diets data).precautions.Sublist
        (topPrecautions descs meds precs diets
          (rank_diseases (match_diseases
            (predictModel table descs meds precs diets
              data).matched_symptoms table))) := by
  rcases predictModel_eq_cases table descs meds precs diets data with
    ⟨hfail, -⟩ | ⟨raw, -, heq⟩
  · rw [hfail] at h
    exact absurd h (by simp)
  · rw [heq, successResponse_matched, successResponse_medications,
      successResponse_precautions]
    refine ⟨(dedupByLoop_keys_nodup _ _ _).1, dedupByLoop_nodup _,
      ?_, dedupByLoop_sublist _ _ _, dedupByLoop_sublist _ _ _⟩
    intro p hp
    constructor
    · intro m hm
      have hall : m ∈ topMedications descs meds precs diets
          (rank_diseases (match_diseases
            (extract_symptoms (pyStrip raw) table) table)) := by
        unfold topMedications
        exact List.mem_flatMap.2 ⟨p, hp, hm⟩
      have := mem_dedupByLoop Medication.name [] _ m hall (by simp)
      exact this
    · intro q hq
      have hall : q ∈ topPrecautions descs meds precs diets
          (rank_diseases (match_diseases
            (extract_symptoms (pyStrip raw) table) table)) := by
        unfold topPrecautions
        exact List.mem_flatMap.2 ⟨p, hp, hq⟩
      have hid := mem_dedupByLoop id [] _ q hall (by simp)
      simpa using hid

/-- **C9** witness: the analysis of `"fever and cough"` over the tiny
fixtures (whose `Flu` and `Cold` rows share `Paracetamol` and `rest`)
emits duplicate-free medications and precautions. -/
theorem c9_witness :
    ((predictModel tinyTable tinyDescs tinyMeds tinyPrecs tinyDiets
        (some "fever and cough")).medications.map Medication.name).Nodup ∧
      (predictModel tinyTable tinyDescs tinyMeds tinyPrecs tinyDiets
        (some "fever and cough")).precautions.Nodup :=
  ⟨(c9_aggregation_dedup tinyTable tinyDescs tinyMeds tinyPrecs tinyDiets
      (some "fever and cough") (by decide)).1,
    (c9_aggregation_dedup tinyTable tinyDescs tinyMeds tinyPrecs tinyDiets
      (some "fever and cough") (by decide)).2.1⟩

/-! ### Claims C7 and C8 groundwork: the reasoning text -/

theorem infix_append_left {x m : List Char} (a : List Char)
    (h : x <:+: m) : x <:+: a ++ m :=
  h.trans ⟨a, [], by simp⟩

theorem infix_append_right {x m : List Char} (b : List Char)
    (h : x <:+: m) : x <:+: m ++ b :=
  h.trans ⟨[], b, by simp⟩

theorem infix_joinSep (sep : String) (l : List String) (s : String)
    (hs : s ∈ l) : s.data <:+: (joinSep sep l).data := by
  induction l with
  | nil => cases hs
  | cons a rest ih =>
    cases rest with
    | nil =>
      rcases List.mem_cons.1 hs with rfl | h
      · exact List.infix_refl _
      · cases h
    | cons b t =>
      rcases List.mem_cons.1 hs with rfl | h
      · show s.data <:+: ((s ++ sep) ++ joinSep sep (b :: t)).data
        simp only [String.data_append, List.append_assoc]
        exact infix_append_right _ (List.infix_refl _)
      · show s.data <:+: ((a ++ sep) ++ joinSep sep (b :: t)).data
        simp only [String.data_append, List.append_assoc]
        exact infix_append_left _ (infix_append_left _ (ih h))

theorem infix_symptomString (matched : List String) (s : String)
    (hs : s ∈ matched) : s.data <:+: (symptomString matched).data := by
  unfold symptomString
  split
  · exact infix_joinSep _ _ _ hs
  · next hlen =>
    cases matched with
    | nil => cases hs
    | cons a rest =>
      cases rest with
      | nil =>
        rcases List.mem_cons.1 hs with rfl | h
        · exact List.infix_refl _
        · cases h
      | cons b t => simp at hlen

theorem infix_reasoningBase_symptom (matched : List String)
    (disease : String) (score : Nat) (s : String) (hs : s ∈ matched) :
    s.data <:+: (reasoningBase matched disease score).data := by
  unfold reasoningBase
  simp only [String.data_append, List.append_assoc]
  exact infix_append_left _ (infix_append_left _ (infix_append_left _
    (infix_append_right _ (infix_symptomString matched s hs))))

theorem infix_reasoningBase_disease (matched : List String)
    (disease : String) (score : Nat) :
    disease.data <:+: (reasoningBase matched disease score).data := by
  unfold reasoningBase
  simp only [String.data_append, List.append_assoc]
  exact infix_append_left _ (infix_append_left _ (infix_append_left _
    (infix_append_left _ (infix_append_left _
      (infix_append_right _ (List.infix_refl _))))))

theorem successResponse_reasoning (descs : List (String × String))
    (meds : List (String × List String)) (precs : List (String × String))
    (diets : List (String × List String)) (st : String)
    (matched : List String) (top : List (String × Nat)) :
    (successResponse descs meds precs diets st matched top).reasoning =
      generate_reasoning matched
          ((diseasesList top matched.length).headD ⟨0, "", 0, 0⟩).name
          ((diseasesList top
            matched.length).headD ⟨0, "", 0, 0⟩).symptom_count ++
        (if (diseasesList top matched.length).length > 1 then
          otherConditions ((diseasesList top matched.length).drop 1)
        else "") ++ CONSULT_NOTE := rfl

/-! ### Claim C7: reasoning content -/

/-- **C7** (amended).  For a non-empty matched list and score ≥ 1 the
reasoning is the base sentence — which names every matched symptom and
the top disease — followed by exactly one score-selected qualifier
sentence: the "high likelihood" sentence exactly when score ≥ 3, the
"moderate overlap" sentence exactly when score = 2, the "further
evaluation" sentence exactly when score = 1; and in every successful
analysis the response reasoning ends with the fixed clause directing the
user to a healthcare professional.  (As stated the claim is refuted by
`c7_counterexample`: the *wording* can also occur inside a matched
symptom or disease name, so phrase-occurrence in the full string is only
guaranteed in the forward direction.) -/
theorem c7_reasoning_content (matched : List String) (disease : String)
    (score : Nat) (hm : matched ≠ []) (hs : 1 ≤ score)
    (table : List SymptomRow) (descs : List (String × String))
    (meds : List (String × List String)) (precs : List (String × String))
    (diets : List (String × List String)) (data : Option String) :
    generate_reasoning matched disease score =
        reasoningBase matched disease score ++ qualifierNote score ∧
      (qualifierNote score = HIGH_NOTE ↔ 3 ≤ score) ∧
      (qualifierNote score = MODERATE_NOTE ↔ score = 2) ∧
      (qualifierNote score = FURTHER_NOTE ↔ score = 1) ∧
      (∀ s ∈ matched,
        s.data <:+: (generate_reasoning matched disease score).data) ∧
      disease.data <:+: (generate_reasoning matched disease score).data ∧
      ((predictModel table descs meds precs diets data).success = true →
        CONSULT_NOTE.data <:+
          (predictModel table descs meds precs diets data).reasoning.data) := by
  have hcond : ¬ (matched = [] ∨ score = 0) := by
    rintro (h | h)
    · exact hm h
    · omega
  have hgen : generate_reasoning matched disease score =
      reasoningBase matched disease score ++ qualifierNote score := by
    unfold generate_reasoning
    rw [if_neg hcond]
  refine ⟨hgen, ?_, ?_, ?_, ?_, ?_, ?_⟩
  · unfold qualifierNote
    by_cases h3 : 3 ≤ score
    · simp [h3]
    · by_cases h2 : score = 2 <;> simp [h3, h2] <;> decide
  · unfold qualifierNote
    by_cases h3 : 3 ≤ score
    · simp [h3]
      constructor
      · intro he; exact absurd he.symm (by decide)
      · omega
    · by_cases h2 : score = 2
      · simp [h3, h2]
      · simp [h3, h2]
        decide
  · unfold qualifierNote
    by_cases h3 : 3 ≤ score
    · simp [h3]
      constructor
      · intro he; exact absurd he.symm (by decide)
      · omega
    · by_cases h2 : score = 2
      · simp [h3, h2]
        decide
      · simp [h3, h2]
        omega
  · intro s hsm
    rw [hgen, String.data_append]
    exact infix_append_right _
      (infix_reasoningBase_symptom matched disease score s hsm)
  · rw [hgen, String.data_append]
    exact infix_append_right _
      (infix_reasoningBase_disease matched disease score)
  · intro hsucc
    rcases predictModel_eq_cases table descs meds precs diets data with
      ⟨hfail, -⟩ | ⟨raw, -, heq⟩
    · rw [hfail] at hsucc
      exact absurd hsucc (by simp)
    · rw [heq, successResponse_reasoning, String.data_append]
      exact List.suffix_append _ _

/-- **C7** counterexample to "uses high-likelihood wording *exactly
when* score ≥ 3": with matched symptom list `["high likelihood"]` (a
vocabulary token may be any string), top disease `"Flu"` and score 1,
the generated reasoning contains the phrase `"high likelihood"` even
though `¬ 3 ≤ 1`. -/
theorem c7_counterexample :
    ¬ (3 ≤ 1) ∧
      ("high likelihood" : String).data <:+:
        (generate_reasoning ["high likelihood"] "Flu" 1).data :=
  ⟨by omega, (containsL_iff _ _).1 (by decide)⟩

/-- **C7** witness at matched `["fever", "cough"]`, disease `"Flu"`,
score 2, over the tiny endpoint fixtures. -/
theorem c7_witness :
    generate_reasoning ["fever", "cough"] "Flu" 2 =
        reasoningBase ["fever", "cough"] "Flu" 2 ++ qualifierNote 2 ∧
      (qualifierNote 2 = HIGH_NOTE ↔ 3 ≤ 2) ∧
      (qualifierNote 2 = MODERATE_NOTE ↔ 2 = 2) ∧
      (qualifierNote 2 = FURTHER_NOTE ↔ 2 = 1) ∧
      (∀ s ∈ (["fever", "cough"] : List String),
        s.data <:+: (generate_reasoning ["fever", "cough"] "Flu" 2).data) ∧
      ("Flu" : String).data <:+:
        (generate_reasoning ["fever", "cough"] "Flu" 2).data ∧
      ((predictModel tinyTable tinyDescs tinyMeds tinyPrecs tinyDiets
          (some "fever and cough")).success = true →
        CONSULT_NOTE.data <:+
          (predictModel tinyTable tinyDescs tinyMeds tinyPrecs tinyDiets
            (some "fever and cough")).reasoning.data) :=
  c7_reasoning_content ["fever", "cough"] "Flu" 2 (by decide) (by decide)
    tinyTable tinyDescs tinyMeds tinyPrecs tinyDiets
    (some "fever and cough")

end CDS
